import Mathlib

/-!
Shallow embedding of the repository-bootstrap orchestrator
(`src/bootstrap/repo_scripts/repo_initializer.py`) and of the registry
loader (`src/manager/manager_scripts/assembly_posts.py`, `load_registry`).

YAML documents are modelled by the inductive `Yaml`; Python dictionary
access, truthiness and `str.strip` are modelled by `pyGetD`, `pyTruthy`
and `pyStrip`.  Every fallible Python operation returns `Except Err`;
an uncaught Python exception corresponds to an `Except.error`.

The HTTP world is an explicit environment (`Env`, `PagesEnv`) giving the
status code (and JSON body) of each request the script may issue; the
side effects performed by a run (log lines, API calls, git commands)
are collected in an explicit trace of `Effect`s.  Wall-clock time in the
polling loops is a `Nat` counter: each loop iteration advances the clock
by the sleep interval plus one tick for the HTTP round trip (the round
trip takes positive real time, which is also what makes the loops
terminate).
-/

/-- A YAML value, as produced by `yaml.safe_load`. -/
inductive Yaml where
  | null
  | bool (b : Bool)
  | str (s : String)
  | int (n : Int)
  | list (xs : List Yaml)
  | map (kvs : List (String × Yaml))
deriving Repr

/-- Python exceptions that the scripts can raise. -/
inductive Err where
  | attributeError
  | runtimeError (msg : String)
deriving Repr, DecidableEq

/-- First binding of a key in a YAML mapping (mapping keys are unique in
a well-formed YAML document). -/
def lookupKey : List (String × Yaml) → String → Option Yaml
  | [], _ => none
  | (k', v) :: rest, k => if k' = k then some v else lookupKey rest k

/-- Python `v.get(k, d)`: dictionary lookup with a default; raises
`AttributeError` when `v` is not a dictionary. -/
def pyGetD (v : Yaml) (k : String) (d : Yaml) : Except Err Yaml :=
  match v with
  | .map kvs => .ok ((lookupKey kvs k).getD d)
  | _ => .error .attributeError

/-- Python `v.get(k)` (default `None`). -/
def pyGet (v : Yaml) (k : String) : Except Err Yaml :=
  pyGetD v k .null

/-- Python truthiness of a YAML value. -/
def pyTruthy : Yaml → Bool
  | .null => false
  | .bool b => b
  | .str s => s ≠ ""
  | .int n => n != 0
  | .list xs => !xs.isEmpty
  | .map kvs => !kvs.isEmpty

/-- Python `str.strip()`: drop leading and trailing whitespace (the
ASCII whitespace characters, which is what the registries contain). -/
def pyTrim (s : String) : String :=
  ⟨((s.data.dropWhile Char.isWhitespace).reverse.dropWhile Char.isWhitespace).reverse⟩

/-- Python `v.strip()`: defined on strings only. -/
def pyStrip : Yaml → Except Err String
  | .str s => .ok (pyTrim s)
  | _ => .error .attributeError

/-- Python `(v or "").strip()`. -/
def pyStripOr (v : Yaml) : Except Err String :=
  if pyTruthy v then pyStrip v else .ok ""

/-- `(entry.get(k) or "").strip()` — the field accessor used by
`process_repo` for `org` and `name`. -/
def getStrField (entry : Yaml) (k : String) : Except Err String :=
  match pyGet entry k with
  | .error e => .error e
  | .ok v => pyStripOr v

/-- `(entry.get("description") or entry.get("title") or "").strip()`. -/
def descOf (entry : Yaml) : Except Err String :=
  match pyGet entry "description" with
  | .error e => .error e
  | .ok d =>
    if pyTruthy d then pyStrip d
    else
      match pyGet entry "title" with
      | .error e => .error e
      | .ok t => pyStripOr t

/-- `bool(entry.get("private", False))`. -/
def privateOf (entry : Yaml) : Except Err Bool :=
  match pyGetD entry "private" (.bool false) with
  | .error e => .error e
  | .ok v => .ok (pyTruthy v)

/-- Python `"x" == v` for a YAML value `v` (a non-string never equals a
string). -/
def yamlEqStr : Yaml → String → Bool
  | .str t, s => t = s
  | _, _ => false

/-- Observable side effects of a run: log lines, GitHub API requests and
git/rsync process invocations, in program order. -/
inductive Effect where
  | log (who msg : String)
  | errlog (who : String)
  | apiGetRepo (org repo : String)
  | apiCreateRepo (org repo : String)
  | apiGetBranch
  | apiGetPages
  | apiPostPages
  | apiPutPages
  | apiDispatch (org repo event : String)
  | gitClone
  | gitSetRemote
  | gitFetch
  | gitConfigName
  | gitConfigEmail
  | gitCheckout
  | gitReset
  | gitClean
  | rsyncDiscipline
  | rsyncWorkflows
  | gitStatus
  | gitAdd
  | gitCommit
  | gitPush
deriving Repr, DecidableEq

/-- Result of one `enable_pages_once` attempt. -/
inductive OnceResult where
  | enabled
  | noop
  | wait
deriving Repr, DecidableEq

/-- Result of `enable_pages_with_wait`. -/
inductive Outcome where
  | enabled
  | noop
  | timeout_branch
  | timeout_pages
deriving Repr, DecidableEq

/-- Responses of the Pages part of the GitHub API, indexed by attempt
number (the poll loop re-issues the calls). -/
structure PagesEnv where
  getStatus : Nat → Nat
  getBody : Nat → Yaml
  postStatus : Nat → Nat
  putStatus : Nat → Nat

/-- The whole external world one `process_repo` run interacts with:
HTTP status codes for each request, and the local-filesystem facts the
git/rsync steps observe. -/
structure Env where
  repoStatus : Nat
  createStatus : Nat
  branchStatus : Nat → Nat
  pages : PagesEnv
  dispatchSiteStatus : Nat
  dispatchReadmeStatus : Nat
  porcelain : String
  disciplineExists : Bool
  workflowsExists : Bool

/-- Process configuration read from the environment at start-up. -/
structure Config where
  alwaysDispatch : Bool
  dispatchSite : String
  dispatchReadme : String
  waitSleep : Nat
  waitTimeout : Nat

/-- `repo_exists`: 200 → true, 404 → false, else `RuntimeError`. -/
def repo_exists (st : Nat) : Except Err Bool :=
  if st = 200 ∨ st = 404 then .ok (st = 200)
  else .error (.runtimeError "repo_exists unexpected")

/-- `create_repo`: 201 and 422 are success, else `RuntimeError`. -/
def create_repo (st : Nat) : Except Err Unit :=
  if st = 201 ∨ st = 422 then .ok ()
  else .error (.runtimeError "create_repo failed")

/-- `branch_exists_api`: 200 → true, 404 → false, else `RuntimeError`. -/
def branch_exists_api (st : Nat) : Except Err Bool :=
  if st = 200 ∨ st = 404 then .ok (st = 200)
  else .error (.runtimeError "branch_exists_api unexpected")

/-- `get_pages`: 200 → the JSON body, 404 → `None`, else `RuntimeError`. -/
def get_pages (st : Nat) (body : Yaml) : Except Err (Option Yaml) :=
  if st = 200 then .ok (some body)
  else if st = 404 then .ok none
  else .error (.runtimeError "get_pages unexpected")

/-- `dispatch`: success is exactly 204. -/
def dispatch_call (st : Nat) : Except Err Unit :=
  if st = 204 then .ok () else .error (.runtimeError "dispatch failed")

/-- `enable_pages_once(org, repo)`.  Reads the current Pages
configuration; when it already targets `gh-pages:/` the call is a no-op;
when it exists but differs, a `PUT` update is attempted (failure
raises).  When Pages is absent, a creating `POST` is attempted:
201/204 → enabled, 422 → "wait" (the `gh-pages` branch does not exist
yet), and any other status falls back to an idempotent `PUT` whose
success still counts as enabled; only when that fallback also fails
does the call raise. -/
def enable_pages_once (p : PagesEnv) (i : Nat) :
    Except Err OnceResult × List Effect :=
  match get_pages (p.getStatus i) (p.getBody i) with
  | .error e => (.error e, [.apiGetPages])
  | .ok (some current) =>
    match pyGet current "source" with
    | .error e => (.error e, [.apiGetPages])
    | .ok srcv =>
      let src := if pyTruthy srcv then srcv else Yaml.map []
      let updatePut : Except Err OnceResult × List Effect :=
        let stq := p.putStatus i
        if stq = 200 ∨ stq = 201 ∨ stq = 204 then
          (.ok .enabled, [.apiGetPages, .apiPutPages])
        else
          (.error (.runtimeError "pages PUT failed"), [.apiGetPages, .apiPutPages])
      match pyGet src "branch" with
      | .error e => (.error e, [.apiGetPages])
      | .ok bv =>
        if yamlEqStr bv "gh-pages" then
          match pyGet src "path" with
          | .error e => (.error e, [.apiGetPages])
          | .ok pv =>
            if yamlEqStr pv "/" then (.ok .noop, [.apiGetPages])
            else updatePut
        else updatePut
  | .ok none =>
    let stp := p.postStatus i
    if stp = 201 ∨ stp = 204 then
      (.ok .enabled, [.apiGetPages, .apiPostPages])
    else if stp = 422 then
      (.ok .wait, [.apiGetPages, .apiPostPages])
    else
      let stq := p.putStatus i
      if stq = 200 ∨ stq = 201 ∨ stq = 204 then
        (.ok .enabled, [.apiGetPages, .apiPostPages, .apiPutPages])
      else
        (.error (.runtimeError "enable_pages failed"),
         [.apiGetPages, .apiPostPages, .apiPutPages])

/-- Body of `wait_for_branch`'s `while time.time() < deadline` loop.
`fuel` is an upper bound on the remaining iterations; it never runs out
before the clock reaches the deadline because each iteration advances
the clock by `sleep + 1 ≥ 1` while consuming one unit of fuel (the
wrapper `wait_for_branch` supplies `fuel = timeout`). -/
def waitBranchGo (bst : Nat → Nat) (sleep : Nat) :
    Nat → Nat → Nat → Nat → Except Err (Bool × Nat) × List Effect
  | 0, _, now, _ => (.ok (false, now), [])
  | fuel + 1, i, now, deadline =>
    if now < deadline then
      match branch_exists_api (bst i) with
      | .error e => (.error e, [.apiGetBranch])
      | .ok true => (.ok (true, now), [.apiGetBranch])
      | .ok false =>
        let r := waitBranchGo bst sleep fuel (i + 1) (now + sleep + 1) deadline
        (r.1, .apiGetBranch :: r.2)
    else (.ok (false, now), [])

/-- `wait_for_branch(org, repo, branch)`: polls `branch_exists_api`
until it answers true or the deadline `now + timeout` passes.  Returns
the answer together with the clock value at return. -/
def wait_for_branch (bst : Nat → Nat) (sleep now timeout : Nat) :
    Except Err (Bool × Nat) × List Effect :=
  waitBranchGo bst sleep timeout 0 now (now + timeout)

/-- Body of the Pages retry loop in `enable_pages_with_wait`; same fuel
discipline as `waitBranchGo`. -/
def pagesGo (p : PagesEnv) (sleep : Nat) :
    Nat → Nat → Nat → Nat → Except Err (Outcome × Nat) × List Effect
  | 0, _, now, _ => (.ok (.timeout_pages, now), [])
  | fuel + 1, i, now, deadline =>
    if now < deadline then
      match enable_pages_once p i with
      | (.error e, tr) => (.error e, tr)
      | (.ok .enabled, tr) => (.ok (.enabled, now), tr)
      | (.ok .noop, tr) => (.ok (.noop, now), tr)
      | (.ok .wait, tr) =>
        let r := pagesGo p sleep fuel (i + 1) (now + sleep + 1) deadline
        (r.1, tr ++ r.2)
    else (.ok (.timeout_pages, now), [])

/-- `enable_pages_with_wait(org, repo)`: wait for `gh-pages` to exist
(else `timeout_branch`), then retry `enable_pages_once` until it
answers enabled/noop or a fresh deadline passes (else `timeout_pages`). -/
def enable_pages_with_wait (env : Env) (cfg : Config) (now : Nat) :
    Except Err (Outcome × Nat) × List Effect :=
  match wait_for_branch env.branchStatus cfg.waitSleep now cfg.waitTimeout with
  | (.error e, tr) => (.error e, tr)
  | (.ok (false, t), tr) => (.ok (.timeout_branch, t), tr)
  | (.ok (true, t), tr) =>
    let r := pagesGo env.pages cfg.waitSleep cfg.waitTimeout 0 t (t + cfg.waitTimeout)
    (r.1, tr ++ r.2)

/-- The effects of `ensure_main_checkout`, the two rsync mirror steps of
`sync_template_into_main`, and the `git status --porcelain` probe. -/
def syncBaseTrace (env : Env) : List Effect :=
  [.gitCheckout, .gitReset, .gitClean, .rsyncDiscipline]
    ++ (if env.workflowsExists then [.rsyncWorkflows] else []) ++ [.gitStatus]

/-- `sync_template_into_main(repo_dir)`: raises when the discipline
template directory is missing; otherwise checks out a pristine `main`,
mirrors the discipline tree onto the root and (when present) the
workflow tree onto `.github/workflows`, and then — only if
`git status --porcelain` reports changes — stages, commits and pushes,
returning `true`; with a clean tree it returns `false` without
committing or pushing. -/
def sync_template_into_main (env : Env) : Except Err Bool × List Effect :=
  if env.disciplineExists then
    if env.porcelain = "" then (.ok false, syncBaseTrace env)
    else (.ok true, syncBaseTrace env ++ [.gitAdd, .gitCommit, .gitPush])
  else (.error (.runtimeError "missing discipline source"), [])

/-- The conditional dispatch step of `process_repo`: when
`ALWAYS_DISPATCH` is set or the sync step did not push, send the two
repository-dispatch events (stopping at the first failure). -/
def dispatchPhase (cfg : Config) (env : Env) (org repo full : String)
    (pushed : Bool) : Except Err Unit × List Effect :=
  if cfg.alwaysDispatch || !pushed then
    match dispatch_call env.dispatchSiteStatus with
    | .error e => (.error e, [.apiDispatch org repo cfg.dispatchSite])
    | .ok _ =>
      match dispatch_call env.dispatchReadmeStatus with
      | .error e =>
        (.error e,
         [.apiDispatch org repo cfg.dispatchSite,
          .log full ("dispatched " ++ cfg.dispatchSite),
          .apiDispatch org repo cfg.dispatchReadme])
      | .ok _ =>
        (.ok (),
         [.apiDispatch org repo cfg.dispatchSite,
          .log full ("dispatched " ++ cfg.dispatchSite),
          .apiDispatch org repo cfg.dispatchReadme,
          .log full ("dispatched " ++ cfg.dispatchReadme)])
  else (.ok (), [])

/-- Log message for each `enable_pages_with_wait` outcome. -/
def pagesMsg : Outcome → String
  | .enabled => "Pages enabled (gh-pages:/)"
  | .noop => "Pages already enabled"
  | .timeout_branch => "timeout: gh-pages not visible yet. Re-run initializer soon."
  | .timeout_pages => "timeout: Pages still returning 422/wait. Re-run initializer soon."

/-- `process_repo(entry)`: read `org`/`name`/`description`/`private`
from the entry, return silently when `org` or `name` is blank, skip
when the remote repository already exists, otherwise create it, clone
it, sync the templates, conditionally dispatch, and wait for Pages. -/
def process_repo (cfg : Config) (env : Env) (entry : Yaml) :
    Except Err Unit × List Effect :=
  match getStrField entry "org" with
  | .error e => (.error e, [])
  | .ok org =>
  match getStrField entry "name" with
  | .error e => (.error e, [])
  | .ok repo =>
  match descOf entry with
  | .error e => (.error e, [])
  | .ok _desc =>
  match privateOf entry with
  | .error e => (.error e, [])
  | .ok _priv =>
  let full := org ++ "/" ++ repo
  if org = "" ∨ repo = "" then (.ok (), [])
  else
    let t0 : List Effect := [.log full "start", .apiGetRepo org repo]
    match repo_exists env.repoStatus with
    | .error e => (.error e, t0)
    | .ok true =>
      (.ok (), t0 ++
        [.log full "exists — skipped (initializer only creates missing repos)"])
    | .ok false =>
      match create_repo env.createStatus with
      | .error e => (.error e, t0 ++ [.apiCreateRepo org repo])
      | .ok _ =>
        let t1 := t0 ++
          [.apiCreateRepo org repo, .log full "repo created",
           .gitClone, .gitSetRemote, .gitFetch, .gitConfigName, .gitConfigEmail]
        match sync_template_into_main env with
        | (.error e, ts) => (.error e, t1 ++ ts)
        | (.ok pushed, ts) =>
          let t2 := t1 ++ ts ++
            [if pushed then
               Effect.log full "main updated (push should trigger update-site workflow)"
             else Effect.log full "no diff in main (template already in sync)"]
          match dispatchPhase cfg env org repo full pushed with
          | (.error e, td) => (.error e, t2 ++ td)
          | (.ok _, td) =>
            match enable_pages_with_wait env cfg 0 with
            | (.error e, tw) => (.error e, t2 ++ td ++ tw)
            | (.ok (o, _), tw) =>
              (.ok (), t2 ++ td ++ tw ++ [.log full (pagesMsg o)])

/-- First key among `keys` whose value in the mapping is a list
(`assembly_posts.load_registry`'s key scan). -/
def firstListKey (kvs : List (String × Yaml)) : List String → Option (List Yaml)
  | [] => none
  | k :: ks =>
    match lookupKey kvs k with
    | some (.list xs) => some xs
    | _ => firstListKey kvs ks

/-- `assembly_posts.load_registry`: a bare list is returned as is; a
mapping is scanned for the first of the keys `repos`, `repositories`,
`items`, `orgs`, `entries` whose value is a list; anything else raises
`ValueError`. -/
def load_registry (doc : Yaml) : Except Err (List Yaml) :=
  match doc with
  | .list xs => .ok xs
  | .map kvs =>
    match firstListKey kvs ["repos", "repositories", "items", "orgs", "entries"] with
    | some xs => .ok xs
    | none => .error (.runtimeError "Registry format not supported")
  | _ => .error (.runtimeError "Registry format not supported")

/-- The `repos` extraction in `repo_initializer.main`:
`data = yaml.safe_load(...) or {}` followed by `data.get("repos", [])`. -/
def registryRepos (doc : Yaml) : Except Err Yaml :=
  pyGetD (if pyTruthy doc then doc else .map []) "repos" (.list [])

/-- The log identifier `f"{(entry.get('org') or '').strip()}/{...}"`
computed by `main`'s loop *before* its `try` block. -/
def entryFull (entry : Yaml) : Except Err String :=
  match getStrField entry "org" with
  | .error e => .error e
  | .ok org =>
    match getStrField entry "name" with
    | .error e => .error e
    | .ok name => .ok (org ++ "/" ++ name)

/-- The effects one registry entry contributes to the batch: its
`process_repo` trace, followed by the `err(full, "process", ...)` line
when `process_repo` raised (the exception is caught there). -/
def perEntryTrace (cfg : Config) (env : Env) (entry : Yaml) : List Effect :=
  match entryFull entry with
  | .error _ => []
  | .ok full =>
    match process_repo cfg env entry with
    | (.ok _, tr) => tr
    | (.error _, tr) => tr ++ [.errlog full]

/-- `main`'s per-entry loop.  The identifier computation sits outside
the `try`, so its exception aborts the whole loop; an exception from
`process_repo` is caught, logged, and the loop advances.  Entry `j` of
the registry runs against world `envs j`. -/
def processEntries (cfg : Config) (envs : Nat → Env) :
    Nat → List Yaml → Except Err Unit × List Effect
  | _, [] => (.ok (), [])
  | i, entry :: rest =>
    match entryFull entry with
    | .error e => (.error e, [])
    | .ok full =>
      let pr := process_repo cfg (envs i) entry
      let tr :=
        match pr.1 with
        | .ok _ => pr.2
        | .error _ => pr.2 ++ [.errlog full]
      let r := processEntries cfg envs (i + 1) rest
      (r.1, tr ++ r.2)

/-- `repo_initializer.main`: exit 2 when the registry file is missing or
`repos` is not a list, exit 0 after the best-effort loop, and exit 1
(an uncaught traceback) when the document shape makes `data.get` or the
identifier computation raise.  The second component is the trace of
every effect performed. -/
def mainRun (cfg : Config) (fileExists : Bool) (doc : Yaml) (envs : Nat → Env) :
    Nat × List Effect :=
  if fileExists then
    match registryRepos doc with
    | .error _ => (1, [])
    | .ok reposV =>
      match reposV with
      | .list rs =>
        match processEntries cfg envs 0 rs with
        | (.ok _, tr) => (0, tr)
        | (.error _, tr) => (1, tr)
      | _ => (2, [.errlog "registry.repos must be a list"])
  else (2, [])

/-! ### Concrete worlds used by the witnesses and counterexamples -/

/-- Pages API world where Pages is not configured yet; the creating
`POST` answers `post`, the fallback `PUT` answers `put`. -/
def pagesAbsent (post put : Nat) : PagesEnv :=
  ⟨fun _ => 404, fun _ => .null, fun _ => post, fun _ => put⟩

/-- Default configuration: dispatch only when nothing was pushed. -/
def cfg0 : Config := ⟨false, "site-template-updated", "readme-template-updated", 0, 2⟩

/-- World in which the remote repository already exists. -/
def envExists : Env :=
  ⟨200, 201, fun _ => 404, pagesAbsent 422 500, 204, 204, "", true, true⟩

/-- World in which the remote repository is missing and the `gh-pages`
branch never appears. -/
def envNew : Env :=
  ⟨404, 201, fun _ => 404, pagesAbsent 422 500, 204, 204, "", true, true⟩

/-- Constant world assignment for batch runs. -/
def envs0 : Nat → Env := fun _ => envExists

/-- A well-formed registry entry. -/
def entryA : Yaml := .map [("org", .str "acme"), ("name", .str "repo-a")]

/-- A registry entry with no `org` and no `name` whose `description` is
a (truthy) integer, so `.strip()` on it raises `AttributeError`. -/
def entryBadDesc : Yaml := .map [("description", .int 5)]

/-- A registry entry with a `name` but no `org`. -/
def entryNameOnly : Yaml := .map [("name", .str "repo-a")]

/-- A registry mapping with a top-level `org` and one entry lacking its
own `org`. -/
def docOrgTop : Yaml :=
  .map [("org", .str "acme"), ("repos", .list [.map [("name", .str "r")]])]

/-- A registry whose `repos` list contains a bare string before a
well-formed entry. -/
def docBadEntry : Yaml := .map [("repos", .list [.str "oops", entryA])]

/-! ### Helper lemmas about the poll-loop traces -/

/-- The four possible traces of one `enable_pages_once` attempt. -/
theorem once_trace_cases (p : PagesEnv) (i : Nat) :
    (enable_pages_once p i).2 = [Effect.apiGetPages] ∨
    (enable_pages_once p i).2 = [Effect.apiGetPages, Effect.apiPutPages] ∨
    (enable_pages_once p i).2 = [Effect.apiGetPages, Effect.apiPostPages] ∨
    (enable_pages_once p i).2
      = [Effect.apiGetPages, Effect.apiPostPages, Effect.apiPutPages] := by
  unfold enable_pages_once
  rcases hg : get_pages (p.getStatus i) (p.getBody i) with e | o
  · simp
  · rcases o with _ | cur
    · simp only
      split_ifs <;> simp
    · simp only
      rcases hsv : pyGet cur "source" with e | srcv
      · simp
      · simp only
        rcases hbv : pyGet (if pyTruthy srcv = true then srcv else Yaml.map [])
            "branch" with e | bv
        · simp
        · simp only
          by_cases hb : yamlEqStr bv "gh-pages" = true
          · rw [if_pos hb]
            rcases hpv : pyGet (if pyTruthy srcv = true then srcv else Yaml.map [])
                "path" with e | pv
            · simp
            · simp only
              split_ifs <;> simp
          · rw [if_neg hb]
            split_ifs <;> simp

/-- Every effect of one `enable_pages_once` attempt is a Pages API
request. -/
theorem once_trace_sub (p : PagesEnv) (i : Nat) :
    ∀ e ∈ (enable_pages_once p i).2,
      e = Effect.apiGetPages ∨ e = Effect.apiPostPages ∨ e = Effect.apiPutPages := by
  intro e he
  rcases once_trace_cases p i with h | h | h | h <;> rw [h] at he <;> simp_all <;> tauto

/-- Every effect of the Pages retry loop is a Pages API request. -/
theorem pagesGo_trace_sub (p : PagesEnv) (sleep : Nat) :
    ∀ fuel i now deadline, ∀ e ∈ (pagesGo p sleep fuel i now deadline).2,
      e = Effect.apiGetPages ∨ e = Effect.apiPostPages ∨ e = Effect.apiPutPages := by
  intro fuel
  induction fuel with
  | zero =>
    intro i now deadline e he
    simp [pagesGo] at he
  | succ f ih =>
    intro i now deadline e he
    rw [pagesGo] at he
    split at he
    · rcases h1 : enable_pages_once p i with ⟨r, tr⟩
      rw [h1] at he
      have htr : ∀ x ∈ tr, x = Effect.apiGetPages ∨ x = Effect.apiPostPages ∨
          x = Effect.apiPutPages := by
        intro x hx
        have := once_trace_sub p i x
        rw [h1] at this
        exact this hx
      rcases r with er | r
      · exact htr e he
      · rcases r <;> simp only at he
        · exact htr e he
        · exact htr e he
        · rcases List.mem_append.1 he with h2 | h2
          · exact htr e h2
          · exact ih (i + 1) (now + sleep + 1) deadline e h2
    · simp at he

/-- Every effect of the branch-wait loop is a branch-existence check. -/
theorem waitBranchGo_trace_sub (bst : Nat → Nat) (sleep : Nat) :
    ∀ fuel i now deadline, ∀ e ∈ (waitBranchGo bst sleep fuel i now deadline).2,
      e = Effect.apiGetBranch := by
  intro fuel
  induction fuel with
  | zero =>
    intro i now deadline e he
    simp [waitBranchGo] at he
  | succ f ih =>
    intro i now deadline e he
    rw [waitBranchGo] at he
    split at he
    · split at he <;> simp_all
      rcases he with he | he
      · exact he
      · exact ih (i + 1) (now + sleep + 1) deadline e he
    · simp at he

/-- Every effect of `enable_pages_with_wait` is a branch check or a
Pages API request; in particular it never dispatches, creates, clones,
commits or pushes. -/
theorem epw_trace_sub (env : Env) (cfg : Config) (now : Nat) :
    ∀ e ∈ (enable_pages_with_wait env cfg now).2,
      e = Effect.apiGetBranch ∨ e = Effect.apiGetPages ∨
      e = Effect.apiPostPages ∨ e = Effect.apiPutPages := by
  intro e he
  unfold enable_pages_with_wait at he
  rcases h1 : wait_for_branch env.branchStatus cfg.waitSleep now cfg.waitTimeout
    with ⟨r, tr⟩
  rw [h1] at he
  have htr : ∀ x ∈ tr, x = Effect.apiGetBranch := by
    intro x hx
    have := waitBranchGo_trace_sub env.branchStatus cfg.waitSleep cfg.waitTimeout 0
      now (now + cfg.waitTimeout) x
    rw [show waitBranchGo env.branchStatus cfg.waitSleep cfg.waitTimeout 0 now
      (now + cfg.waitTimeout) = (r, tr) from h1] at this
    exact this hx
  rcases r with er | b
  · exact Or.inl (htr e he)
  · rcases b with ⟨b, t⟩
    rcases b <;> simp only at he
    · exact Or.inl (htr e he)
    · rcases List.mem_append.1 he with h2 | h2
      · exact Or.inl (htr e h2)
      · exact Or.inr (pagesGo_trace_sub env.pages cfg.waitSleep cfg.waitTimeout 0 t
          (t + cfg.waitTimeout) e h2)

/-- `enable_pages_with_wait` never sends a repository-dispatch event. -/
theorem epw_no_dispatch (env : Env) (cfg : Config) (now : Nat)
    (org repo ev : String) :
    Effect.apiDispatch org repo ev ∉ (enable_pages_with_wait env cfg now).2 := by
  intro h
  rcases epw_trace_sub env cfg now _ h with h' | h' | h' | h' <;> simp_all

/-- Timing of the branch-wait loop when the branch never exists (every
poll answers 404): the loop runs to the deadline and reports `false` at
a clock value in `[deadline, deadline + sleep]` — never earlier than the
deadline and never unboundedly later. -/
theorem waitBranchGo_timeout (bst : Nat → Nat) (sleep : Nat)
    (h404 : ∀ j, bst j = 404) :
    ∀ fuel i now deadline, deadline ≤ now + fuel → now ≤ deadline + sleep →
      ∃ t tr, waitBranchGo bst sleep fuel i now deadline = (.ok (false, t), tr) ∧
        deadline ≤ t ∧ t ≤ deadline + sleep := by
  intro fuel
  induction fuel with
  | zero =>
    intro i now deadline hf hb
    exact ⟨now, [], rfl, by omega, hb⟩
  | succ f ih =>
    intro i now deadline hf hb
    rw [waitBranchGo]
    by_cases hlt : now < deadline
    · rw [if_pos hlt]
      have hbe : branch_exists_api (bst i) = .ok false := by
        rw [h404 i]; rfl
      rw [hbe]
      obtain ⟨t, tr, heq, h1, h2⟩ :=
        ih (i + 1) (now + sleep + 1) deadline (by omega) (by omega)
      exact ⟨t, .apiGetBranch :: tr, by simp only [heq], h1, h2⟩
    · rw [if_neg hlt]
      exact ⟨now, [], rfl, by omega, hb⟩

/-- A batch whose entry identifiers all compute without raising finishes
with `Except.ok`: every `process_repo` exception is caught inside the
loop. -/
theorem processEntries_ok (cfg : Config) (envs : Nat → Env) :
    ∀ rs i, (∀ x ∈ rs, (entryFull x).isOk = true) →
      (processEntries cfg envs i rs).1 = .ok () := by
  intro rs
  induction rs with
  | nil => intro i _; rfl
  | cons e rest ih =>
    intro i h
    have he := h e (List.mem_cons_self e rest)
    rcases hf : entryFull e with er | full
    · rw [hf] at he; simp [Except.isOk, Except.toBool] at he
    · rw [processEntries, hf]
      exact ih (i + 1) fun x hx => h x (List.mem_cons_of_mem e hx)

/-! ### The claims -/

/-- C1: for every registry entry whose remote repository already exists
(`repo_exists` answers 200), `process_repo` performs no create, clone,
sync/push or dispatch operation: right after the existence check it logs
the skip and returns, its whole trace being the start log, the single
existence `GET`, and the skip log — nothing that mutates the remote. -/
theorem c1_existing_repo_skipped (cfg : Config) (env : Env) (entry : Yaml)
    (org repo desc : String) (priv : Bool)
    (ho : getStrField entry "org" = .ok org)
    (hn : getStrField entry "name" = .ok repo)
    (hd : descOf entry = .ok desc)
    (hp : privateOf entry = .ok priv)
    (ho' : org ≠ "") (hr' : repo ≠ "")
    (hs : env.repoStatus = 200) :
    process_repo cfg env entry =
      (.ok (), [.log (org ++ "/" ++ repo) "start", .apiGetRepo org repo,
        .log (org ++ "/" ++ repo)
          "exists — skipped (initializer only creates missing repos)"]) := by
  unfold process_repo
  rw [ho, hn, hd, hp]
  simp only
  rw [if_neg (not_or_intro ho' hr')]
  rw [hs]
  simp [repo_exists]

/-- Witness for C1 at a concrete entry and world. -/
theorem c1_existing_repo_skipped_witness :
    process_repo cfg0 envExists entryA =
      (.ok (), [.log "acme/repo-a" "start", .apiGetRepo "acme" "repo-a",
        .log "acme/repo-a"
          "exists — skipped (initializer only creates missing repos)"]) :=
  c1_existing_repo_skipped cfg0 envExists entryA "acme" "repo-a" "" false
    rfl rfl rfl rfl (by decide) (by decide) rfl

/-- C9 (amended): for every registry entry (a mapping) whose field
computations succeed and whose stripped `org` or `name` is empty —
missing, empty, or whitespace-only — `process_repo` returns `ok` with an
empty trace: no log line, no error, no API call. -/
theorem c9_blank_identifier_silent (cfg : Config) (env : Env) (entry : Yaml)
    (org repo desc : String) (priv : Bool)
    (ho : getStrField entry "org" = .ok org)
    (hn : getStrField entry "name" = .ok repo)
    (hd : descOf entry = .ok desc)
    (hp : privateOf entry = .ok priv)
    (hblank : org = "" ∨ repo = "") :
    process_repo cfg env entry = (.ok (), []) := by
  unfold process_repo
  rw [ho, hn, hd, hp]
  simp only
  rw [if_pos hblank]

/-- Witness for the amended C9: an entry with a `name` and no `org`. -/
theorem c9_blank_identifier_silent_witness :
    process_repo cfg0 envExists entryNameOnly = (.ok (), []) :=
  c9_blank_identifier_silent cfg0 envExists entryNameOnly "" "repo-a" "" false
    rfl rfl rfl rfl (Or.inl rfl)

/-- Counterexample to C9 as stated: `entryBadDesc` has no `org` and no
`name` (both compute to blank), yet `process_repo` does not return
silently — computing the description runs `.strip()` on the truthy
integer `5`, which raises `AttributeError` before the blank check, so an
error *is* produced for this entry (and `main` would log it). -/
theorem c9_counterexample :
    process_repo cfg0 envExists entryBadDesc = (.error .attributeError, []) ∧
    getStrField entryBadDesc "org" = .ok "" ∧
    getStrField entryBadDesc "name" = .ok "" :=
  ⟨rfl, rfl, rfl⟩

/-- C6: the bootstrap synchroniser returns `false` ("no-op") exactly
when, after the mirroring steps, `git status --porcelain` reports no
changes, and in that case its trace contains no commit and no push;
with a dirty tree it stages, commits, pushes and returns `true`. -/
theorem c6_sync_noop_detection (env : Env) (hd : env.disciplineExists = true) :
    (env.porcelain = "" →
      sync_template_into_main env = (.ok false, syncBaseTrace env) ∧
      Effect.gitCommit ∉ (sync_template_into_main env).2 ∧
      Effect.gitPush ∉ (sync_template_into_main env).2) ∧
    (env.porcelain ≠ "" →
      sync_template_into_main env
        = (.ok true, syncBaseTrace env ++ [.gitAdd, .gitCommit, .gitPush])) := by
  constructor
  · intro hp
    have h1 : sync_template_into_main env = (.ok false, syncBaseTrace env) := by
      unfold sync_template_into_main
      rw [hd, hp]
      simp
    refine ⟨h1, ?_, ?_⟩ <;> rw [h1] <;>
      by_cases hw : env.workflowsExists = true <;>
      simp [syncBaseTrace, hw]
  · intro hp
    unfold sync_template_into_main
    rw [hd]
    simp [hp]

/-- Witness for C6 at a concrete world with a clean tree. -/
theorem c6_sync_noop_detection_witness :
    sync_template_into_main envExists = (.ok false, syncBaseTrace envExists) ∧
    Effect.gitCommit ∉ (sync_template_into_main envExists).2 ∧
    Effect.gitPush ∉ (sync_template_into_main envExists).2 :=
  (c6_sync_noop_detection envExists rfl).1 rfl

/-- C10: a registry mapping without a `repos` key, and an empty/null
document, both yield an empty entry list: `main` processes zero entries,
performs no effect at all, and exits 0 — no `ConfigError` is raised. -/
theorem c10_missing_repos_key (cfg : Config) (envs : Nat → Env)
    (kvs : List (String × Yaml)) (hk : lookupKey kvs "repos" = none) :
    mainRun cfg true (.map kvs) envs = (0, []) ∧
    mainRun cfg true .null envs = (0, []) := by
  refine ⟨?_, rfl⟩
  unfold mainRun registryRepos
  by_cases ht : pyTruthy (Yaml.map kvs) = true
  · rw [if_pos ht]
    simp [pyGetD, hk, processEntries]
  · rw [if_neg ht]
    simp [pyGetD, lookupKey, processEntries]

/-- Witness for C10 at a mapping with keys but no `repos`. -/
theorem c10_missing_repos_key_witness :
    mainRun cfg0 true (.map [("org", .str "acme")]) envs0 = (0, []) ∧
    mainRun cfg0 true .null envs0 = (0, []) :=
  c10_missing_repos_key cfg0 envs0 [("org", .str "acme")] rfl

/-- C4: when `branch_exists_api` never answers 200 (every poll gets
404), the branch-wait loop reports the timeout at a clock value no
earlier than the configured deadline and at most one sleep interval past
it — it neither times out early nor loops forever (the wait functions
are total) — and the combined wait returns `timeout_branch`, one of its
four enumerated outcomes, rather than raising. -/
theorem c4_branch_wait_timeout (cfg : Config) (env : Env) (now : Nat)
    (h404 : ∀ j, env.branchStatus j = 404) :
    ∃ t tr, enable_pages_with_wait env cfg now = (.ok (.timeout_branch, t), tr) ∧
      now + cfg.waitTimeout ≤ t ∧ t ≤ now + cfg.waitTimeout + cfg.waitSleep := by
  obtain ⟨t, tr, heq, h1, h2⟩ := waitBranchGo_timeout env.branchStatus cfg.waitSleep
    h404 cfg.waitTimeout 0 now (now + cfg.waitTimeout) (by omega) (by omega)
  refine ⟨t, tr, ?_, h1, h2⟩
  unfold enable_pages_with_wait wait_for_branch
  rw [heq]

/-- Witness for C4 in a world whose `gh-pages` branch never appears. -/
theorem c4_branch_wait_timeout_witness :
    ∃ t tr, enable_pages_with_wait envNew cfg0 0 = (.ok (.timeout_branch, t), tr) ∧
      0 + cfg0.waitTimeout ≤ t ∧ t ≤ 0 + cfg0.waitTimeout + cfg0.waitSleep :=
  c4_branch_wait_timeout cfg0 envNew 0 fun _ => rfl

/-- C8 (amended): a registry document that is a single *nonempty* string
makes `main` abort with a non-zero exit before issuing any request (the
trace is empty): `data.get("repos", [])` raises `AttributeError` on a
string, the uncaught exception playing the spec's `ConfigError` role.
(The empty string is instead treated as an absent document — see the
counterexample.) -/
theorem c8_string_registry_aborts (cfg : Config) (envs : Nat → Env)
    (s : String) (hs : s ≠ "") :
    mainRun cfg true (.str s) envs = (1, []) := by
  unfold mainRun registryRepos
  have ht : pyTruthy (.str s) = true := by simp [pyTruthy, hs]
  rw [if_pos ht]
  simp [pyGetD]

/-- Witness for the amended C8. -/
theorem c8_string_registry_aborts_witness :
    mainRun cfg0 true (.str "just a string") envs0 = (1, []) :=
  c8_string_registry_aborts cfg0 envs0 "just a string" (by decide)

/-- Counterexample to C8 as stated: for the registry document that is
the *empty* string — a YAML document that is a single string — `main`
does not fail at all: `'' or {}` replaces it with an empty mapping, so
the run processes zero entries and exits 0 (still with no network
call). -/
theorem c8_counterexample : mainRun cfg0 true (.str "") envs0 = (0, []) := rfl

/-- C7 (amended): per-entry exceptions from `process_repo` are caught at
`main`'s loop: whenever every entry's `org/name` identifier computation
(the f-string *outside* the `try`) succeeds, the process exits 0 no
matter what the per-entry worlds answer, and the batch trace of
`entry :: rest` is always the entry's own trace (error line included)
followed by the untouched processing of `rest` — one entry's failure
never stops the others. -/
theorem c7_per_entry_isolation (cfg : Config) (envs : Nat → Env)
    (kvs : List (String × Yaml)) (rs : List Yaml)
    (hk : lookupKey kvs "repos" = some (.list rs))
    (hok : ∀ x ∈ rs, (entryFull x).isOk = true) :
    (mainRun cfg true (.map kvs) envs).1 = 0 ∧
    (∀ i e rest, (entryFull e).isOk = true →
      processEntries cfg envs i (e :: rest) =
        ((processEntries cfg envs (i + 1) rest).1,
          perEntryTrace cfg (envs i) e ++ (processEntries cfg envs (i + 1) rest).2)) := by
  constructor
  · have hkv : kvs ≠ [] := by
      intro h; rw [h] at hk; simp [lookupKey] at hk
    have ht : pyTruthy (Yaml.map kvs) = true := by
      cases kvs with
      | nil => exact absurd rfl hkv
      | cons a l => rfl
    unfold mainRun registryRepos
    rw [if_pos ht]
    simp only [pyGetD, hk, Option.getD]
    rcases hpe : processEntries cfg envs 0 rs with ⟨r, tr⟩
    have hr := processEntries_ok cfg envs rs 0 hok
    rw [hpe] at hr
    simp only at hr
    subst hr
    simp
  · intro i e rest he
    rcases hf : entryFull e with er | full
    · rw [hf] at he; simp [Except.isOk, Except.toBool] at he
    · rw [processEntries, hf]
      unfold perEntryTrace
      rw [hf]
      rcases hp : process_repo cfg (envs i) e with ⟨r, tr⟩
      rcases r with er | u <;> simp

/-- Witness for the amended C7 at a one-entry registry. -/
theorem c7_per_entry_isolation_witness :
    (mainRun cfg0 true (.map [("repos", .list [entryA])]) envs0).1 = 0 ∧
    (∀ i e rest, (entryFull e).isOk = true →
      processEntries cfg0 envs0 i (e :: rest) =
        ((processEntries cfg0 envs0 (i + 1) rest).1,
          perEntryTrace cfg0 (envs0 i) e ++ (processEntries cfg0 envs0 (i + 1) rest).2)) :=
  c7_per_entry_isolation cfg0 envs0 [("repos", .list [entryA])] [entryA] rfl
    (by intro x hx; rw [List.mem_singleton] at hx; subst hx; rfl)

/-- Counterexample to C7 as stated: in the registry `docBadEntry` the
first `repos` element is the bare string `"oops"`; computing its log
identifier (`entry.get('org')`) raises `AttributeError` *outside* the
`try` block, so the exception is not caught: the batch aborts with exit
code 1 and an empty trace — the following well-formed entry `entryA` is
never processed (no `start` log for it), and the exit code is not 0. -/
theorem c7_counterexample : mainRun cfg0 true docBadEntry envs0 = (1, []) := rfl

/-- C2 (amended): the loaders return the document's entry list verbatim
and in order — `load_registry` for a bare list and for a mapping whose
`repos` key holds a list, and `main`'s extraction for the mapping shape —
but no top-level `org` is ever distributed onto the entries: they keep
exactly the fields written in the document. -/
theorem c2_loader_returns_entries (xs rs : List Yaml)
    (kvs : List (String × Yaml))
    (hk : lookupKey kvs "repos" = some (.list rs)) :
    load_registry (.list xs) = .ok xs ∧
    load_registry (.map kvs) = .ok rs ∧
    registryRepos (.map kvs) = .ok (.list rs) := by
  refine ⟨rfl, ?_, ?_⟩
  · have h1 : firstListKey kvs ["repos", "repositories", "items", "orgs", "entries"]
        = some rs := by
      rw [firstListKey, hk]
    simp [load_registry, h1]
  · have hkv : kvs ≠ [] := by
      intro h; rw [h] at hk; simp [lookupKey] at hk
    have ht : pyTruthy (Yaml.map kvs) = true := by
      cases kvs with
      | nil => exact absurd rfl hkv
      | cons a l => rfl
    unfold registryRepos
    rw [if_pos ht]
    simp [pyGetD, hk]

/-- Witness for the amended C2 at the mapping `docOrgTop` (top-level
`org` present) and a two-element bare list. -/
theorem c2_loader_returns_entries_witness :
    load_registry (.list [entryA, entryNameOnly]) = .ok [entryA, entryNameOnly] ∧
    load_registry (.map [("org", .str "acme"), ("repos", .list [.map [("name", .str "r")]])])
      = .ok [.map [("name", .str "r")]] ∧
    registryRepos (.map [("org", .str "acme"), ("repos", .list [.map [("name", .str "r")]])])
      = .ok (.list [.map [("name", .str "r")]]) :=
  c2_loader_returns_entries [entryA, entryNameOnly] [.map [("name", .str "r")]]
    [("org", .str "acme"), ("repos", .list [.map [("name", .str "r")]])] rfl

/-- Counterexample to C2 as stated: `docOrgTop` is a mapping with
top-level `org: acme` and one entry lacking its own `org`, but the
loaded entry still has no `org` field at all (`entry.get("org")` yields
`None`, not `"acme"`): the claimed distribution of the top-level `org`
does not happen anywhere in the code. -/
theorem c2_counterexample :
    load_registry docOrgTop = .ok [Yaml.map [("name", Yaml.str "r")]] ∧
    pyGet (Yaml.map [("name", Yaml.str "r")]) "org" = .ok .null ∧
    (Except.ok Yaml.null : Except Err Yaml) ≠ .ok (Yaml.str "acme") := by
  refine ⟨rfl, rfl, ?_⟩
  intro h
  exact Yaml.noConfusion (Except.ok.inj h)

/-- C3 (amended): `enable_pages_once` returns `noop` when the remote
Pages configuration already matches `{branch: gh-pages, path: /}`, and
returns `wait` *exactly* when Pages is absent (read answers 404) and the
creating `POST` is rejected with 422 — never for another status.  But a
non-2xx, non-422 creation status does **not** raise immediately: the
code falls back to a `PUT` and still returns `enabled` when that
succeeds; a hard failure is raised only when the fallback `PUT` also
fails (and on the update path or an unexpected Pages read). -/
theorem c3_pages_once_classification :
    (∀ (p : PagesEnv) (i : Nat) (src : Yaml),
        p.getStatus i = 200 →
        pyGet (p.getBody i) "source" = .ok src →
        pyTruthy src = true →
        pyGet src "branch" = .ok (.str "gh-pages") →
        pyGet src "path" = .ok (.str "/") →
        (enable_pages_once p i).1 = .ok .noop) ∧
    (∀ (p : PagesEnv) (i : Nat),
        (enable_pages_once p i).1 = .ok .wait ↔
          p.getStatus i = 404 ∧ p.postStatus i = 422) ∧
    (∀ (p : PagesEnv) (i : Nat),
        p.getStatus i = 404 → p.postStatus i ≠ 201 → p.postStatus i ≠ 204 →
        p.postStatus i ≠ 422 →
        (p.putStatus i = 200 ∨ p.putStatus i = 201 ∨ p.putStatus i = 204) →
        (enable_pages_once p i).1 = .ok .enabled) ∧
    (∀ (p : PagesEnv) (i : Nat),
        p.getStatus i = 404 → p.postStatus i ≠ 201 → p.postStatus i ≠ 204 →
        p.postStatus i ≠ 422 → p.putStatus i ≠ 200 → p.putStatus i ≠ 201 →
        p.putStatus i ≠ 204 →
        (enable_pages_once p i).1
          = .error (.runtimeError "enable_pages failed")) := by
  refine ⟨?_, ?_, ?_, ?_⟩
  · intro p i src hg hsv htr hbr hpt
    have hgp : get_pages (p.getStatus i) (p.getBody i)
        = .ok (some (p.getBody i)) := by
      rw [hg]; rfl
    unfold enable_pages_once
    rw [hgp]
    simp only
    rw [hsv]
    simp only
    rw [if_pos htr]
    rw [hbr]
    simp only
    rw [if_pos (by rfl : yamlEqStr (.str "gh-pages") "gh-pages" = true)]
    rw [hpt]
    simp [yamlEqStr]
  · intro p i
    constructor
    · intro h
      by_cases hg2 : p.getStatus i = 200
      · exfalso
        have hgp : get_pages (p.getStatus i) (p.getBody i)
            = .ok (some (p.getBody i)) := by
          rw [hg2]; rfl
        unfold enable_pages_once at h
        rw [hgp] at h
        simp only at h
        rcases hsv : pyGet (p.getBody i) "source" with e | srcv
        · rw [hsv] at h; exact absurd h (by simp)
        · rw [hsv] at h
          simp only at h
          rcases hbv : pyGet (if pyTruthy srcv = true then srcv else Yaml.map [])
              "branch" with e | bv
          · rw [hbv] at h; exact absurd h (by simp)
          · rw [hbv] at h
            simp only at h
            by_cases hb : yamlEqStr bv "gh-pages" = true
            · rw [if_pos hb] at h
              rcases hpv : pyGet (if pyTruthy srcv = true then srcv else Yaml.map [])
                  "path" with e | pv
              · rw [hpv] at h; exact absurd h (by simp)
              · rw [hpv] at h
                simp only at h
                split_ifs at h
                all_goals simp_all
            · rw [if_neg hb] at h
              split_ifs at h
              all_goals simp_all
      · by_cases hg4 : p.getStatus i = 404
        · have hgp : get_pages (p.getStatus i) (p.getBody i) = .ok none := by
            rw [hg4]; rfl
          unfold enable_pages_once at h
          rw [hgp] at h
          simp only at h
          split_ifs at h with h1 h2 h3
          all_goals simp_all
        · have hgp : get_pages (p.getStatus i) (p.getBody i)
              = .error (.runtimeError "get_pages unexpected") := by
            unfold get_pages
            rw [if_neg hg2, if_neg hg4]
          unfold enable_pages_once at h
          rw [hgp] at h
          exact absurd h (by simp)
    · rintro ⟨hg4, hp422⟩
      have hgp : get_pages (p.getStatus i) (p.getBody i) = .ok none := by
        rw [hg4]; rfl
      unfold enable_pages_once
      rw [hgp]
      simp only
      rw [hp422]
      simp
  · intro p i hg h1 h2 h3 h4
    have hgp : get_pages (p.getStatus i) (p.getBody i) = .ok none := by
      rw [hg]; rfl
    unfold enable_pages_once
    rw [hgp]
    simp only
    rw [if_neg (by tauto), if_neg h3, if_pos h4]
  · intro p i hg h1 h2 h3 h4 h5 h6
    have hgp : get_pages (p.getStatus i) (p.getBody i) = .ok none := by
      rw [hg]; rfl
    unfold enable_pages_once
    rw [hgp]
    simp only
    rw [if_neg (by tauto), if_neg h3, if_neg (by tauto)]

/-- Witness for the amended C3: with Pages absent and the creating
`POST` rejected with 422, the call reports `wait`. -/
theorem c3_pages_once_classification_witness :
    (enable_pages_once (pagesAbsent 422 500) 0).1 = .ok .wait :=
  (c3_pages_once_classification.2.1 (pagesAbsent 422 500) 0).mpr ⟨rfl, rfl⟩

/-- Counterexample to C3 as stated: with Pages absent, a creating `POST`
answering 500 — a non-2xx status other than 422 — does *not* raise a
hard failure: the fallback `PUT` answers 204 and `enable_pages_once`
returns `enabled`. -/
theorem c3_counterexample :
    (enable_pages_once (pagesAbsent 500 204) 0).1 = .ok .enabled := rfl

/-- C5: in a run that creates a missing repository and reaches the
dispatch step (create 201/422, templates present, dispatch endpoint
healthy), the two repository-dispatch events appear in the trace *iff*
the always-dispatch flag is set or the sync step reported "no-op"
(`git status --porcelain` empty, so nothing was pushed); when sync
pushed and the flag is unset, no dispatch call occurs anywhere in the
run. -/
theorem c5_dispatch_condition (cfg : Config) (env : Env) (entry : Yaml)
    (org repo desc : String) (priv : Bool)
    (ho : getStrField entry "org" = .ok org)
    (hn : getStrField entry "name" = .ok repo)
    (hd : descOf entry = .ok desc)
    (hp : privateOf entry = .ok priv)
    (ho' : org ≠ "") (hr' : repo ≠ "")
    (hs : env.repoStatus = 404)
    (hc : env.createStatus = 201 ∨ env.createStatus = 422)
    (hdisc : env.disciplineExists = true)
    (hds : env.dispatchSiteStatus = 204)
    (hdr : env.dispatchReadmeStatus = 204) :
    (Effect.apiDispatch org repo cfg.dispatchSite ∈ (process_repo cfg env entry).2 ∧
     Effect.apiDispatch org repo cfg.dispatchReadme ∈ (process_repo cfg env entry).2)
      ↔ (cfg.alwaysDispatch = true ∨ env.porcelain = "") := by
  have hre : repo_exists env.repoStatus = .ok false := by rw [hs]; rfl
  have hcr : create_repo env.createStatus = .ok () := by
    rcases hc with h | h <;> rw [h] <;> rfl
  unfold process_repo
  rw [ho, hn, hd, hp]
  simp only
  rw [if_neg (not_or_intro ho' hr')]
  rw [hre]
  simp only
  rw [hcr]
  simp only
  by_cases hpor : env.porcelain = ""
  · have hsy : sync_template_into_main env = (.ok false, syncBaseTrace env) := by
      unfold sync_template_into_main
      rw [hdisc, hpor]
      simp
    rw [hsy]
    simp only
    have hdp : dispatchPhase cfg env org repo (org ++ "/" ++ repo) false =
        (.ok (), [.apiDispatch org repo cfg.dispatchSite,
          .log (org ++ "/" ++ repo) ("dispatched " ++ cfg.dispatchSite),
          .apiDispatch org repo cfg.dispatchReadme,
          .log (org ++ "/" ++ repo) ("dispatched " ++ cfg.dispatchReadme)]) := by
      unfold dispatchPhase
      simp [dispatch_call, hds, hdr]
    rw [hdp]
    simp only
    rcases hw : enable_pages_with_wait env cfg 0 with ⟨r, tw⟩
    rcases r with e | ⟨o, t⟩
    · simp only
      refine iff_of_true ⟨?_, ?_⟩ (Or.inr hpor) <;> simp
    · simp only
      refine iff_of_true ⟨?_, ?_⟩ (Or.inr hpor) <;> simp
  · have hsy : sync_template_into_main env =
        (.ok true, syncBaseTrace env ++ [.gitAdd, .gitCommit, .gitPush]) := by
      unfold sync_template_into_main
      rw [hdisc]
      simp [hpor]
    rw [hsy]
    simp only
    by_cases hA : cfg.alwaysDispatch = true
    · have hdp : dispatchPhase cfg env org repo (org ++ "/" ++ repo) true =
          (.ok (), [.apiDispatch org repo cfg.dispatchSite,
            .log (org ++ "/" ++ repo) ("dispatched " ++ cfg.dispatchSite),
            .apiDispatch org repo cfg.dispatchReadme,
            .log (org ++ "/" ++ repo) ("dispatched " ++ cfg.dispatchReadme)]) := by
        unfold dispatchPhase
        simp [dispatch_call, hds, hdr, hA]
      rw [hdp]
      simp only
      rcases hw : enable_pages_with_wait env cfg 0 with ⟨r, tw⟩
      rcases r with e | ⟨o, t⟩
      · simp only
        refine iff_of_true ⟨?_, ?_⟩ (Or.inl hA) <;> simp
      · simp only
        refine iff_of_true ⟨?_, ?_⟩ (Or.inl hA) <;> simp
    · have hA' : cfg.alwaysDispatch = false := by
        cases hcA : cfg.alwaysDispatch
        · rfl
        · exact absurd hcA hA
      have hdp : dispatchPhase cfg env org repo (org ++ "/" ++ repo) true
          = (.ok (), []) := by
        unfold dispatchPhase
        rw [hA']
        simp
      rw [hdp]
      simp only
      rcases hw : enable_pages_with_wait env cfg 0 with ⟨r, tw⟩
      have hnd1 : Effect.apiDispatch org repo cfg.dispatchSite ∉ tw := by
        have h := epw_no_dispatch env cfg 0 org repo cfg.dispatchSite
        rw [hw] at h
        exact h
      rcases r with e | ⟨o, t⟩
      · simp only
        refine iff_of_false ?_ ?_
        · rintro ⟨m1, _⟩
          revert m1
          by_cases hwf : env.workflowsExists = true <;>
            simp [syncBaseTrace, hwf, hnd1]
        · rintro (h | h)
          · exact hA h
          · exact hpor h
      · simp only
        refine iff_of_false ?_ ?_
        · rintro ⟨m1, _⟩
          revert m1
          by_cases hwf : env.workflowsExists = true <;>
            simp [syncBaseTrace, hwf, hnd1]
        · rintro (h | h)
          · exact hA h
          · exact hpor h

/-- Witness for C5: with a clean working tree (sync no-op) and the flag
unset, both dispatch events are sent. -/
theorem c5_dispatch_condition_witness :
    Effect.apiDispatch "acme" "repo-a" cfg0.dispatchSite
        ∈ (process_repo cfg0 envNew entryA).2 ∧
    Effect.apiDispatch "acme" "repo-a" cfg0.dispatchReadme
        ∈ (process_repo cfg0 envNew entryA).2 :=
  (c5_dispatch_condition cfg0 envNew entryA "acme" "repo-a" "" false
    rfl rfl rfl rfl (by decide) (by decide) rfl (Or.inl rfl) rfl rfl rfl).mpr
    (Or.inr rfl)
